import Mathlib

/-!
Verification of the sora-cli video-generation client (main.go) against its
natural-language specification.  The Go program is shallowly embedded below:
pure computations become Lean functions, the file-system / network effects of
`main`, `downloadFile` and `addToHistory` become explicit state passing over
lists of events, and Go machine integers become `Nat`/`Int` (no overflow is
reachable in the embedded fragments: all indices are bounded by the history
length which is capped at 100).
-/

/- ## Data model (main.go:28-68) -/

/-- main.go:44-47 — the error object of an API envelope. -/
structure apiError where
  message : String
  type : String
deriving DecidableEq, Repr

/-- main.go:28-35 — JSON body of POST /videos.  A `none` field is omitted
from the JSON (`omitempty`); `model` and `prompt` are always present. -/
structure createVideoRequest where
  model : String
  prompt : String
  image : Option String
  remixFromVideoID : Option String
  size : Option String
  seconds : Option String
deriving DecidableEq, Repr

/-- main.go:37-42 — response envelope of POST /videos. -/
structure createVideoResponse where
  id : String
  status : String
  error : Option apiError
deriving DecidableEq, Repr

/-- main.go:49-54 — response envelope of GET /videos/{id}. -/
structure videoStatusResponse where
  id : String
  status : String
  error : Option apiError
  progress : Int
deriving DecidableEq, Repr

/-- main.go:56-64 — one persisted history record. -/
structure videoHistoryEntry where
  id : String
  prompt : String
  createdAt : String
  outputFile : String
  model : String
  imageInput : Option String
  remixedFrom : Option String
deriving DecidableEq, Repr

/-- Zero value used as the default of list lookups (never observable: every
lookup below is guarded by the same bounds check the Go code performs). -/
def dfltEntry : videoHistoryEntry :=
  { id := "", prompt := "", createdAt := "", outputFile := "", model := "",
    imageInput := none, remixedFrom := none }

/- ## Go string/path helpers used by main.go -/

/-- Go strings.HasPrefix: `pre` is a prefix of `s` (byte-wise; modelled on
the character lists backing Lean strings). -/
def goStartsWith (s pre : String) : Bool :=
  pre.data.isPrefixOf s.data

/-- Go strings.ToLower.  The program only compares against ASCII vocabulary,
for which Go's Unicode lowering and `Char.toLower` agree. -/
def goToLower (s : String) : String :=
  String.mk (s.data.map Char.toLower)

/-- Go strings.TrimPrefix: drop `pre` from the front of `s` if present. -/
def goTrimLead (s pre : String) : String :=
  if goStartsWith s pre then String.mk (s.data.drop pre.data.length) else s

/-- Go path/filepath.Base on a unix path: strip trailing separators, then keep
everything after the last separator; "" gives ".", an all-separator path
gives "/". -/
def goFilepathBase (p : String) : String :=
  if p = "" then "."
  else
    let r := p.data.reverse.dropWhile (fun c => c = '/')
    if r = [] then "/"
    else String.mk ((r.takeWhile (fun c => c ≠ '/')).reverse)

/-- Skip the blanks Go's fmt scanner skips before a %d verb. -/
def sscanfSkipSpace : List Char → List Char
  | c :: rest => if c = ' ' ∨ c = '\t' then sscanfSkipSpace rest else c :: rest
  | [] => []

/-- Accumulate the value of a maximal leading digit run (fmt's %d stops at
the first non-digit and ignores the rest of the string). -/
def digitsVal : List Char → Nat → Nat
  | c :: rest, acc =>
    if c.isDigit then digitsVal rest (acc * 10 + (c.toNat - '0'.toNat)) else acc
  | [], acc => acc

/-- A digit run must be non-empty for %d to succeed. -/
def parseDigitRun (l : List Char) : Option Nat :=
  match l with
  | c :: _ => if c.isDigit then some (digitsVal l 0) else none
  | [] => none

/-- Go `fmt.Sscanf(s, "%d", &idx)` (main.go:611): skip leading blanks, read an
optionally signed decimal integer, ignore any trailing characters; fails when
no digits follow. -/
def sscanfInt (s : String) : Option Int :=
  match sscanfSkipSpace s.data with
  | '-' :: rest => (parseDigitRun rest).map (fun n => -(n : Int))
  | '+' :: rest => (parseDigitRun rest).map (fun n => (n : Int))
  | l => (parseDigitRun l).map (fun n => (n : Int))

/- ## History store (main.go:572-629) -/

/-- main.go:572-588 — the pure core of addToHistory: prepend the new entry,
then truncate to the 100 most recent entries. -/
def addToHistoryPure (entry : videoHistoryEntry) (videos : List videoHistoryEntry) :
    List videoHistoryEntry :=
  let vs := entry :: videos
  if vs.length > 100 then vs.take 100 else vs

/-- main.go:590-629 — resolveRemixVideoID over the loaded history list.
Order of the Go checks: empty history, "@last", "@"-prefixed index (via
Sscanf %d, bounds-checked), output-filename match (exact or base name),
otherwise the reference passes through as a literal video id. -/
def resolveRemixVideoID (ref : String) (videos : List videoHistoryEntry) :
    Except String String :=
  if videos.length = 0 then .error "no videos in history"
  else if ref = "@last" then .ok (videos.headD dfltEntry).id
  else if goStartsWith ref "@" then
    match sscanfInt (goTrimLead ref "@") with
    | none => .error ("invalid index: " ++ ref)
    | some idx =>
      if idx < 0 ∨ (videos.length : Int) ≤ idx then
        .error ("index out of range: " ++ toString idx ++ " (have "
          ++ toString videos.length ++ " videos)")
      else .ok (videos.getD idx.toNat dfltEntry).id
  else
    match videos.find? (fun v =>
        v.outputFile == ref || goFilepathBase v.outputFile == ref) with
    | some v => .ok v.id
    | none => .ok ref

/- ## Job client response handling (main.go:345-378) -/

/-- main.go:367-377 — what createVideoJob does with a decoded 2xx envelope:
a present error object with a non-empty message is fatal, then a missing id
is fatal, otherwise the id is returned.  (The `if out.Error != nil &&
out.Error.Message != ""` short-circuit is expanded into the two match arms.) -/
def createVideoJobParse (out : createVideoResponse) : Except String String :=
  match out.error with
  | some e =>
    if e.message ≠ "" then .error e.message
    else if out.id = "" then .error "missing job id in response" else .ok out.id
  | none =>
    if out.id = "" then .error "missing job id in response" else .ok out.id

/- ## Polling loop (main.go:253-291) -/

/-- Classification performed by `switch strings.ToLower(st.Status)`
(main.go:278-290). -/
inductive StatusClass where
  | success
  | failure
  | keepPolling
deriving DecidableEq, Repr

/-- main.go:278-290 — success vocabulary reaches DOWNLOAD, failure vocabulary
exits, anything else keeps polling. -/
def classifyStatus (status : String) : StatusClass :=
  let s := goToLower status
  if s = "succeeded" ∨ s = "completed" ∨ s = "complete" ∨ s = "done" ∨ s = "ready" then
    .success
  else if s = "failed" ∨ s = "error" then .failure
  else .keepPolling

/-- What one tick of the polling loop observes: fetchVideoStatus either
returns a transport-level error (main.go:263-266) or a decoded status
response. -/
inductive PollEvent where
  | transportError
  | response (st : videoStatusResponse)
deriving DecidableEq, Repr

/-- How the polling loop can end. -/
inductive PollOutcome where
  | download
  | jobErrorExit (msg : String)
  | jobFailedExit
  | timedOut
deriving DecidableEq, Repr

/-- main.go:278-290 — the status switch, `none` meaning "keep polling". -/
def pollSwitch (st : videoStatusResponse) : Option PollOutcome :=
  match classifyStatus st.status with
  | .success => some .download
  | .failure => some .jobFailedExit
  | .keepPolling => none

/-- main.go:268-290 — handling of one decoded status response: the job-level
error check (fatal only for a non-empty message, main.go:268) runs before the
status switch. -/
def pollStatusStep (st : videoStatusResponse) : Option PollOutcome :=
  match st.error with
  | some e => if e.message ≠ "" then some (.jobErrorExit e.message) else pollSwitch st
  | none => pollSwitch st

/-- main.go:253-291 — the polling loop over the sequence of poll results the
remote service produces, one per tick.  A transport-level error is logged and
the loop continues with the next tick; exhausting the sequence models the
surrounding context deadline firing (main.go:256-258). -/
def pollLoop : List PollEvent → PollOutcome
  | [] => .timedOut
  | .transportError :: rest => pollLoop rest
  | .response st :: rest =>
    match pollStatusStep st with
    | some out => out
    | none => pollLoop rest

/-- main performs exactly one downloadFile call, at the DOWNLOAD label
(main.go:293-304), reached only when the loop ends in a success status. -/
def downloadsPerformed (evs : List PollEvent) : Nat :=
  match pollLoop evs with
  | .download => 1
  | _ => 0

/-- main performs at most one addToHistory call (main.go:329), reached only
after the download at the DOWNLOAD label succeeded (a download error exits at
main.go:304-307 first). -/
def historyWrites (evs : List PollEvent) (downloadOk : Bool) : Nat :=
  match pollLoop evs with
  | .download => if downloadOk then 1 else 0
  | _ => 0

/- ## Image data URI encoding (main.go:499-510) -/

/-- The RFC 4648 standard alphabet of Go's base64.StdEncoding. -/
def base64Table : List Char :=
  "ABCDEFGHIJKLMNOPQRSTUVWXYZabcdefghijklmnopqrstuvwxyz0123456789+/".data

/-- Character for one 6-bit group. -/
def b64Char (n : Nat) : Char := base64Table.getD n 'A'

/-- Go base64.StdEncoding.EncodeToString: 3 bytes become 4 alphabet
characters; a trailing 1- or 2-byte group is padded with '='.  Bytes are
masked to 8 bits as in the Go []byte representation. -/
def base64StdEncode : List Nat → List Char
  | [] => []
  | [b0] =>
    let b0 := b0 % 256
    [b64Char (b0 / 4), b64Char (b0 % 4 * 16), '=', '=']
  | [b0, b1] =>
    let b0 := b0 % 256
    let b1 := b1 % 256
    [b64Char (b0 / 4), b64Char (b0 % 4 * 16 + b1 / 16), b64Char (b1 % 16 * 4), '=']
  | b0 :: b1 :: b2 :: rest =>
    let b0 := b0 % 256
    let b1 := b1 % 256
    let b2 := b2 % 256
    b64Char (b0 / 4) :: b64Char (b0 % 4 * 16 + b1 / 16)
      :: b64Char (b1 % 16 * 4 + b2 / 64) :: b64Char (b2 % 64)
      :: base64StdEncode rest

/-- Value of one alphabet character (none for '=' or a foreign character). -/
def b64Val (c : Char) : Option Nat :=
  let i := base64Table.indexOf c
  if i < 64 then some i else none

/-- Standard base64 decoding, inverse of `base64StdEncode`; used to state that
the data-URI payload carries the input bytes unchanged. -/
def base64StdDecode : List Char → Option (List Nat)
  | [] => some []
  | c0 :: c1 :: c2 :: c3 :: rest =>
    match b64Val c0, b64Val c1 with
    | some v0, some v1 =>
      if c2 = '=' then
        if c3 = '=' ∧ rest = [] ∧ v1 % 16 = 0 then some [v0 * 4 + v1 / 16] else none
      else
        match b64Val c2 with
        | some v2 =>
          if c3 = '=' then
            if rest = [] ∧ v2 % 4 = 0 then
              some [v0 * 4 + v1 / 16, v1 % 16 * 16 + v2 / 4]
            else none
          else
            match b64Val c3 with
            | some v3 =>
              (base64StdDecode rest).map
                (fun bs => (v0 * 4 + v1 / 16) :: (v1 % 16 * 16 + v2 / 4)
                  :: (v2 % 4 * 64 + v3) :: bs)
            | none => none
        | none => none
    | _, _ => none
  | _ => none

/-- Go path/filepath.Ext: walk backwards from the end; a '.' yields the suffix
from it (inclusive), a path separator or the start of the string yields "".
`acc` carries the characters already walked over, in original order. -/
def goExtAux : List Char → List Char → Option (List Char)
  | [], _ => none
  | c :: rest, acc =>
    if c = '/' then none
    else if c = '.' then some (c :: acc)
    else goExtAux rest (c :: acc)

/-- Go path/filepath.Ext. -/
def goExt (p : String) : String :=
  match goExtAux p.data.reverse [] with
  | some l => String.mk l
  | none => ""

/-- main.go:505 — the extension-to-MIME map (lookup of a missing key yields
the zero value ""). -/
def mimeTypeForExt (ext : String) : String :=
  if ext = ".jpg" then "image/jpeg"
  else if ext = ".jpeg" then "image/jpeg"
  else if ext = ".png" then "image/png"
  else if ext = ".gif" then "image/gif"
  else if ext = ".webp" then "image/webp"
  else ""

/-- main.go:499-510 — encodeImageToDataURI, with the bytes os.ReadFile
returned passed explicitly.  The image bytes are embedded verbatim (base64)
into the data URI; no decoding, scaling or cropping happens here. -/
def encodeImageToDataURI (filePath : String) (data : List Nat) : Except String String :=
  let ext := goToLower (goExt filePath)
  let mimeType := mimeTypeForExt ext
  if mimeType = "" then .error ("unsupported format: " ++ ext)
  else .ok ("data:" ++ mimeType ++ ";base64," ++ String.mk (base64StdEncode data))

/- ## Flag validation and request construction (main.go:70-234) -/

/-- How main can leave the flag-processing / submission-preparation phase:
a usage error (os.Exit(2)), an image-processing failure (main.go:201-205), a
remix-resolution failure (main.go:212-216), or the request handed to
createVideoJob (main.go:230, main.go:345-346). -/
inductive PrepResult where
  | usageExit (msg : String)
  | imageExit (msg : String)
  | remixExit (msg : String)
  | submit (req : createVideoRequest)
deriving DecidableEq, Repr

/-- main.go:107-234 — the submission-preparation path of main, for an
invocation with a prompt supplied and the API key set (the --list branch,
interactive prompting and environment loading are orthogonal to the claims
and are not taken).  Checks appear in source order: --seconds validation
(108), --pro override (114), the conflict of --portrait with --landscape (119), the
conflict of -o with -O (163), image encoding (198-207), remix resolution (209-219),
then the optional parameters (221-228) and the request body handed to
createVideoJob (230, 345-346).  There is no remix-conflict validation
anywhere on this path. -/
def prepareRequest (prompt model seconds : String) (usePro portrait landscape : Bool)
    (output : String) (useRemote : Bool) (imageData : Option (String × List Nat))
    (remixFrom : String) (videos : List videoHistoryEntry) : PrepResult :=
  if seconds ≠ "4" ∧ seconds ≠ "8" ∧ seconds ≠ "12" then
    .usageExit ("Invalid --seconds value: " ++ seconds ++ " (must be 4, 8, or 12)")
  else
    let model := if usePro then "sora-2-pro" else model
    if portrait ∧ landscape then .usageExit "Cannot use both --portrait and --landscape"
    else
      let videoSize := if portrait then "720x1280" else "1280x720"
      if output ≠ "" ∧ useRemote then .usageExit "Cannot use --output/-o with -O"
      else
        match (match imageData with
               | some pd => (encodeImageToDataURI pd.1 pd.2).map some
               | none => Except.ok none) with
        | .error e => .imageExit e
        | .ok imageDataURI =>
          match (if remixFrom ≠ "" then (resolveRemixVideoID remixFrom videos).map some
                 else Except.ok none) with
          | .error e => .remixExit e
          | .ok remixVideoID =>
            let sizeParam := if videoSize ≠ "" then some videoSize else none
            let secondsParam := if seconds ≠ "" then some seconds else none
            .submit { model := model, prompt := prompt, image := imageDataURI,
                      remixFromVideoID := remixVideoID, size := sizeParam,
                      seconds := secondsParam }

/- ## Output destination and download (main.go:293-332, 404-468) -/

/-- main.go:293-302 — destination defaulting after a successful poll: an
explicit -o wins, -O derives the name from the job id, otherwise the
curl-like default is the stdout marker "-". -/
def resolveOutput (output : String) (useRemote : Bool) (jobID : String) : String :=
  if output = "" then (if useRemote then jobID ++ ".mp4" else "-") else output

/-- Where the downloaded bytes end up: the primary output stream (stdout) or
a named file.  Progress text goes to stderr (infof, main.go:512-515) in both
cases and is not part of either sink. -/
structure StreamResult where
  stdoutBytes : List Nat
  fileWritten : Option (String × List Nat)
deriving DecidableEq, Repr

/-- main.go:425-433 vs 435-467 — the destination split of downloadFile on a
successful transfer: outPath "-" copies the body to os.Stdout and creates no
file; any other path is written via the temp-file discipline and ends as a
named file. -/
def downloadFilePure (outPath : String) (body : List Nat) : StreamResult :=
  if outPath = "-" then { stdoutBytes := body, fileWritten := none }
  else { stdoutBytes := [], fileWritten := some (outPath, body) }

/-- Contents of the two paths downloadFile touches when writing to a named
destination: the temporary path outPath + ".part" and outPath itself. -/
structure DiskState where
  tmp : Option (List Nat)
  final : Option (List Nat)
deriving DecidableEq, Repr

/-- Failure-injection points of the named-destination branch of downloadFile. -/
inductive DlErr where
  | copyErr
  | syncErr
  | closeErr
  | renameErr
deriving DecidableEq, Repr

/-- main.go:442-467 — the named-destination branch of downloadFile, with an
injected failure.  os.Create starts an empty temp file (444); a failing
io.Copy (456) leaves `partialBytes` there, then the deferred cleanup
(448-454) sees the outer err non-nil and removes the temp file.  The
f.Sync()/f.Close() failures (461, 464) assign a NEW, shadowed err inside the
if-statements, so the outer err stays nil and the deferred cleanup does not
remove the temp file; the same holds when os.Rename itself (467) fails,
since its result is returned without touching the outer err.  Only a fully
copied, synced and closed temp file is renamed onto the final path. -/
def downloadToFile (body partialBytes : List Nat) (fail : Option DlErr) :
    DiskState × Bool :=
  let s0 : DiskState := { tmp := some [], final := none }
  if fail = some .copyErr then
    let s1 := { s0 with tmp := some partialBytes }
    ({ s1 with tmp := none }, true)
  else
    let s1 := { s0 with tmp := some body }
    if fail = some .syncErr then (s1, true)
    else if fail = some .closeErr then (s1, true)
    else if fail = some .renameErr then (s1, true)
    else ({ tmp := none, final := some body }, false)

/-- main.go:313-328 — the history entry main records after a successful
download: outputFile stores `output` as-is (the stdout marker "-" included),
imageInput is nil'd when no image file was supplied, and remixedFrom records
the raw remix reference when one was supplied. -/
def mkHistoryEntry (jobID prompt createdAt output model imageFile remixFrom : String) :
    videoHistoryEntry :=
  let remixFromVideoID := if remixFrom ≠ "" then some remixFrom else none
  let entry : videoHistoryEntry :=
    { id := jobID, prompt := prompt, createdAt := createdAt, outputFile := output,
      model := model, imageInput := some imageFile, remixedFrom := remixFromVideoID }
  if imageFile = "" then { entry with imageInput := none } else entry

/- ## Media conformer (src/go.mod:600-767)

src/go.mod carries, after its dependency block, a second copy of the program
whose processInputFile (lines 692-729) implements the conform step: detect
the media kind by extension, decode images, compare the intrinsic pixel
dimensions against the target, and apply imaging.Fill(img, targetWidth,
targetHeight, imaging.Center, imaging.Lanczos) when they differ.  The codec
decode/encode calls and the imaging library are dependencies consumed at
their interfaces; imaging.Fill ("creates an image with the specified
dimensions and fills it with the scaled source image.  To achieve the
correct aspect ratio without stretching, the source image will be cropped")
is modelled on raster geometry: crop the source to the target aspect ratio
around the Center anchor, then resample to exactly the target box. -/

/-- src/go.mod:600-618 — detectMIMEType: the extension-to-MIME map of the
conform pipeline (images .jpg/.jpeg/.png/.webp, videos .mp4/.webm/.mov/.avi,
anything else the octet-stream default). -/
def detectMIMEType (filePath : String) : String :=
  let ext := goToLower (goExt filePath)
  if ext = ".jpg" then "image/jpeg"
  else if ext = ".jpeg" then "image/jpeg"
  else if ext = ".png" then "image/png"
  else if ext = ".webp" then "image/webp"
  else if ext = ".mp4" then "video/mp4"
  else if ext = ".webm" then "video/webm"
  else if ext = ".mov" then "video/quicktime"
  else if ext = ".avi" then "video/x-msvideo"
  else "application/octet-stream"

/-- src/go.mod:620-623 — isImageFile: the guard selecting processInputFile's
image branch. -/
def isImageFile (filePath : String) : Bool :=
  goStartsWith (detectMIMEType filePath) "image/"

/-- A history entry as recorded after a plain landscape generation. -/
def testEntry : videoHistoryEntry :=
  { id := "vid_1", prompt := "a kite", createdAt := "2025-01-01T00:00:00Z",
    outputFile := "out/kite.mp4", model := "sora-2",
    imageInput := none, remixedFrom := none }

/-- A second history entry. -/
def testEntry2 : videoHistoryEntry :=
  { id := "vid_2", prompt := "a storm", createdAt := "2025-01-02T00:00:00Z",
    outputFile := "storm.mp4", model := "sora-2",
    imageInput := none, remixedFrom := none }

/-- A full 100-entry store (ids "0" … "99", most recent first). -/
def hundredEntries : List videoHistoryEntry :=
  (List.range 100).map fun i => { dfltEntry with id := toString i }

/-- A status response carrying an error object with an empty message. -/
def emptyErrResp : videoStatusResponse :=
  { id := "vid_1", status := "queued",
    error := some { message := "", type := "" }, progress := 0 }

/-- A status response with a recognised success status. -/
def succeededResp : videoStatusResponse :=
  { id := "vid_1", status := "succeeded", error := none, progress := 100 }

/-- A status response with a recognised failure status. -/
def failedResp : videoStatusResponse :=
  { id := "vid_1", status := "failed", error := none, progress := 0 }

/-- A status response with a non-terminal status. -/
def queuedResp : videoStatusResponse :=
  { id := "vid_1", status := "queued", error := none, progress := 0 }

/-- A 2xx create-job envelope carrying an empty-message error object. -/
def createRespEmptyErr : createVideoResponse :=
  { id := "vid_9", status := "queued",
    error := some { message := "", type := "" } }

/-- A 2xx create-job envelope carrying a non-empty error message. -/
def createRespBoomErr : createVideoResponse :=
  { id := "vid_9", status := "queued",
    error := some { message := "boom", type := "" } }

/-- A status response carrying a non-empty job-level error message. -/
def boomResp : videoStatusResponse :=
  { id := "vid_9", status := "queued",
    error := some { message := "boom", type := "" }, progress := 0 }

/- # Helper lemmas -/

theorem strMkData (s : String) : String.mk s.data = s := by
  cases s
  rfl

theorem atAppendData (s : String) : ("@" ++ s).data = '@' :: s.data := by
  rw [String.data_append]
  rfl

theorem goStartsWithAt (s : String) : goStartsWith ("@" ++ s) "@" = true := by
  simp [goStartsWith, atAppendData, List.isPrefixOf]

theorem goTrimLeadAt (s : String) : goTrimLead ("@" ++ s) "@" = s := by
  simp only [goTrimLead, goStartsWithAt, if_pos, atAppendData]
  simp [strMkData]

theorem appendAtEqLast {s : String} (h : "@" ++ s = "@last") : s = "last" := by
  have hd : '@' :: s.data = '@' :: "last".data := by
    have := congrArg String.data h
    rwa [atAppendData] at this
  have h2 : s.data = "last".data := by injection hd
  have := congrArg String.mk h2
  rwa [strMkData, strMkData] at this

/- # Claim theorems -/

/-- C4: appending to the history places the new entry at position 0; the
retained entries form an unmutated, order-preserving prefix of the old list;
and appending to a full 100-entry store yields exactly 100 entries with the
newest at position 0 and the oldest pre-existing entry evicted. -/
theorem C4_history_append :
    ∀ (e : videoHistoryEntry) (vs : List videoHistoryEntry),
      (addToHistoryPure e vs).head? = some e
      ∧ (addToHistoryPure e vs).drop 1 <+: vs
      ∧ (vs.length = 100 →
          addToHistoryPure e vs = e :: vs.dropLast
          ∧ (addToHistoryPure e vs).length = 100) := by
  intro e vs
  unfold addToHistoryPure
  by_cases hlen : (e :: vs).length > 100
  · rw [if_pos hlen]
    have htake : (e :: vs).take 100 = e :: vs.take 99 := List.take_succ_cons
    refine ⟨by rw [htake]; rfl, by rw [htake]; exact List.take_prefix 99 vs, ?_⟩
    intro h100
    have hdl : vs.take 99 = vs.dropLast := by
      rw [List.dropLast_eq_take, h100]
    constructor
    · rw [htake, hdl]
    · rw [htake]
      simp [List.length_take, h100]
  · rw [if_neg hlen]
    refine ⟨rfl, by simp, ?_⟩
    intro h100
    exfalso
    apply hlen
    simp [h100]

/-- C4 witness: appending a 101st entry to a concrete full 100-entry store. -/
theorem C4_witness :
    addToHistoryPure testEntry hundredEntries = testEntry :: hundredEntries.dropLast
    ∧ (addToHistoryPure testEntry hundredEntries).length = 100 :=
  (C4_history_append testEntry hundredEntries).2.2 (by simp [hundredEntries])

/-- C5: resolve("@last") on a non-empty history returns the id of the entry
at position 0; "@N" with N inside the entry count returns the id at position
N; an index outside the entry count (or negative) fails with the
index-out-of-range error; and with an empty history the resolution fails with
the empty-history error. -/
theorem C5_resolve_indexing :
    (∀ (v0 : videoHistoryEntry) (rest : List videoHistoryEntry),
        resolveRemixVideoID "@last" (v0 :: rest) = .ok v0.id)
    ∧ (∀ (idxStr : String) (n : Nat) (videos : List videoHistoryEntry),
        sscanfInt idxStr = some (n : Int) → n < videos.length →
        resolveRemixVideoID ("@" ++ idxStr) videos = .ok (videos.getD n dfltEntry).id)
    ∧ (∀ (idxStr : String) (i : Int) (videos : List videoHistoryEntry),
        sscanfInt idxStr = some i → videos ≠ [] →
        (i < 0 ∨ (videos.length : Int) ≤ i) →
        resolveRemixVideoID ("@" ++ idxStr) videos =
          .error ("index out of range: " ++ toString i ++ " (have "
            ++ toString videos.length ++ " videos)"))
    ∧ (∀ ref : String, resolveRemixVideoID ref [] = .error "no videos in history") := by
  refine ⟨?_, ?_, ?_, ?_⟩
  · intro v0 rest
    simp [resolveRemixVideoID]
  · intro idxStr n videos hparse hlt
    have hne0 : ¬(videos.length = 0) := by omega
    have hrefne : ¬("@" ++ idxStr = "@last") := by
      intro h
      rw [appendAtEqLast h] at hparse
      rw [show sscanfInt "last" = none by decide] at hparse
      exact Option.noConfusion hparse
    unfold resolveRemixVideoID
    rw [if_neg hne0, if_neg hrefne, if_pos (goStartsWithAt idxStr), goTrimLeadAt, hparse]
    have hcond : ¬(((n : Nat) : Int) < 0 ∨ (videos.length : Int) ≤ ((n : Nat) : Int)) := by
      omega
    dsimp only
    rw [if_neg hcond, Int.toNat_natCast]
  · intro idxStr i videos hparse hne hrange
    have hne0 : ¬(videos.length = 0) := by
      simpa [List.length_eq_zero] using hne
    have hrefne : ¬("@" ++ idxStr = "@last") := by
      intro h
      rw [appendAtEqLast h] at hparse
      rw [show sscanfInt "last" = none by decide] at hparse
      exact Option.noConfusion hparse
    unfold resolveRemixVideoID
    rw [if_neg hne0, if_neg hrefne, if_pos (goStartsWithAt idxStr), goTrimLeadAt, hparse]
    dsimp only
    rw [if_pos hrange]
  · intro ref
    simp [resolveRemixVideoID]

/-- C5 witness: the four behaviours at concrete inputs. -/
theorem C5_witness :
    resolveRemixVideoID "@last" [testEntry, testEntry2] = .ok "vid_1"
    ∧ resolveRemixVideoID ("@" ++ "1") [testEntry, testEntry2] = .ok "vid_2"
    ∧ resolveRemixVideoID ("@" ++ "5") [testEntry, testEntry2] =
        .error "index out of range: 5 (have 2 videos)"
    ∧ resolveRemixVideoID "@last" [] = .error "no videos in history" := by
  refine ⟨?_, ?_, ?_, ?_⟩
  · exact C5_resolve_indexing.1 testEntry [testEntry2]
  · exact C5_resolve_indexing.2.1 "1" 1 [testEntry, testEntry2] (by decide) (by decide)
  · exact C5_resolve_indexing.2.2.1 "5" 5 [testEntry, testEntry2] (by decide)
      (by decide) (by decide)
  · exact C5_resolve_indexing.2.2.2 "@last"

/-- C6 counterexample: two divergences from the claim at concrete inputs.
First, the claim says an empty-history failure occurs only when an
index-style or "last" reference was requested, but the code fails with the
empty-history error for EVERY reference when the history is empty — here a
literal job-identifier reference (which does not even start with '@').
Second, "@abc" is not the "@last" token, is not an in-range index token
(its digit parse fails), and matches no recorded output filename, so per the
claim it should be returned unchanged as a literal job identifier — but the
code rejects it with the invalid-index error instead. -/
theorem C6_counterexample :
    (resolveRemixVideoID "video_6901abc" [] = .error "no videos in history"
      ∧ goStartsWith "video_6901abc" "@" = false)
    ∧ (resolveRemixVideoID "@abc" [testEntry] = .error "invalid index: @abc"
      ∧ sscanfInt "abc" = none
      ∧ testEntry.outputFile ≠ "@abc"
      ∧ goFilepathBase testEntry.outputFile ≠ "@abc") := by
  refine ⟨⟨?_, by decide⟩, ?_, by decide, by decide, by decide⟩
  · simp [resolveRemixVideoID]
  · rfl

/-- C6 (amended): when the history is non-empty, a reference that does not
start with '@' and matches no recorded output filename (exactly or by base
name) is returned unchanged as a literal job identifier without validation;
references starting with '@' are never passed through — one whose index part
does not parse as an integer fails with the invalid-index error and one
whose index is negative or at least the entry count fails with the
index-out-of-range error; and when the history is empty, EVERY reference —
literal identifiers included — fails with the empty-history error (not only
index-style or "last" references). -/
theorem C6_literal_passthrough :
    (∀ ref : String, resolveRemixVideoID ref [] = .error "no videos in history")
    ∧ (∀ (ref : String) (videos : List videoHistoryEntry), videos ≠ [] →
        goStartsWith ref "@" = false →
        (∀ v ∈ videos, v.outputFile ≠ ref ∧ goFilepathBase v.outputFile ≠ ref) →
        resolveRemixVideoID ref videos = .ok ref)
    ∧ (∀ (ref : String) (videos : List videoHistoryEntry), videos ≠ [] →
        ref ≠ "@last" → goStartsWith ref "@" = true →
        sscanfInt (goTrimLead ref "@") = none →
        resolveRemixVideoID ref videos = .error ("invalid index: " ++ ref))
    ∧ (∀ (ref : String) (videos : List videoHistoryEntry) (i : Int), videos ≠ [] →
        ref ≠ "@last" → goStartsWith ref "@" = true →
        sscanfInt (goTrimLead ref "@") = some i →
        (i < 0 ∨ (videos.length : Int) ≤ i) →
        resolveRemixVideoID ref videos =
          .error ("index out of range: " ++ toString i ++ " (have "
            ++ toString videos.length ++ " videos)")) := by
  refine ⟨?_, ?_, ?_, ?_⟩
  · intro ref
    simp [resolveRemixVideoID]
  · intro ref videos hne hat hnom
    have hne0 : ¬(videos.length = 0) := by
      simpa [List.length_eq_zero] using hne
    have hrefne : ¬(ref = "@last") := by
      intro h
      rw [h] at hat
      exact absurd hat (by decide)
    have hfind : videos.find? (fun v =>
        v.outputFile == ref || goFilepathBase v.outputFile == ref) = none := by
      rw [List.find?_eq_none]
      intro v hv
      simp only [Bool.or_eq_true, beq_iff_eq]
      rintro (h | h)
      · exact (hnom v hv).1 h
      · exact (hnom v hv).2 h
    unfold resolveRemixVideoID
    rw [if_neg hne0, if_neg hrefne, if_neg (by simp [hat]), hfind]
  · intro ref videos hne hlast hat hparse
    have hne0 : ¬(videos.length = 0) := by
      simpa [List.length_eq_zero] using hne
    unfold resolveRemixVideoID
    rw [if_neg hne0, if_neg hlast, if_pos hat, hparse]
  · intro ref videos i hne hlast hat hparse hrange
    have hne0 : ¬(videos.length = 0) := by
      simpa [List.length_eq_zero] using hne
    unfold resolveRemixVideoID
    rw [if_neg hne0, if_neg hlast, if_pos hat, hparse]
    dsimp only
    rw [if_pos hrange]

/-- C1 counterexample: an invocation that supplies a remix reference together
with an explicit duration flag (--seconds 8) is NOT rejected — no
ValidationError path exists — and the submitted request carries size,
seconds and model alongside remix_from_video_id, refuting both halves of the
claim at this concrete input. -/
theorem C1_counterexample :
    prepareRequest "add lightning" "sora-2" "8" false false false "" false none
        "@last" [testEntry]
      = .submit { model := "sora-2", prompt := "add lightning", image := none,
                  remixFromVideoID := some "vid_1", size := some "1280x720",
                  seconds := some "8" } := by
  decide

/-- C1 (amended): the controller performs no remix-conflict validation: a
remix invocation whose flags pass the generic checks (a valid --seconds
value, not both orientations, not -o together with -O) and whose reference
resolves is submitted, and the submission request carries the size, seconds
and model parameters alongside remix_from_video_id — they are never stripped
or rejected for remixes. -/
theorem C1_no_remix_validation :
    ∀ (prompt model seconds : String) (usePro portrait landscape : Bool)
      (output : String) (useRemote : Bool) (remixFrom : String)
      (videos : List videoHistoryEntry) (rid : String),
      (seconds = "4" ∨ seconds = "8" ∨ seconds = "12") →
      ¬(portrait = true ∧ landscape = true) →
      ¬(output ≠ "" ∧ useRemote = true) →
      remixFrom ≠ "" →
      resolveRemixVideoID remixFrom videos = .ok rid →
      prepareRequest prompt model seconds usePro portrait landscape output useRemote
          none remixFrom videos
        = .submit { model := if usePro then "sora-2-pro" else model,
                    prompt := prompt,
                    image := none,
                    remixFromVideoID := some rid,
                    size := some (if portrait then "720x1280" else "1280x720"),
                    seconds := some seconds } := by
  intro prompt model seconds usePro portrait landscape output useRemote remixFrom
    videos rid hsec hpl hout hremix hrid
  have hsec' : ¬(seconds ≠ "4" ∧ seconds ≠ "8" ∧ seconds ≠ "12") := by tauto
  have hvs : (if portrait then "720x1280" else "1280x720") ≠ "" := by
    cases portrait <;> decide
  have hsecne : seconds ≠ "" := by
    rcases hsec with h | h | h <;> rw [h] <;> decide
  unfold prepareRequest
  rw [if_neg hsec', if_neg hpl, if_neg hout]
  dsimp only
  rw [if_pos hremix, hrid]
  dsimp only [Except.map]
  rw [if_pos hvs, if_pos hsecne]

/-- C1 witness: the amended statement at a concrete remix invocation with an
explicit duration. -/
theorem C1_witness :
    prepareRequest "add lightning" "sora-2" "8" false false false "" false none
        "@last" [testEntry]
      = .submit { model := "sora-2", prompt := "add lightning", image := none,
                  remixFromVideoID := some "vid_1", size := some "1280x720",
                  seconds := some "8" } :=
  C1_no_remix_validation "add lightning" "sora-2" "8" false false false "" false
    "@last" [testEntry] "vid_1" (Or.inr (Or.inl rfl)) (by decide) (by decide)
    (by decide) rfl

/-- C6 witness: a literal reference passes through a non-empty history with
no filename match; any reference on an empty history fails; a non-numeric
'@' reference fails with the invalid-index error; an out-of-range '@'
reference fails with the index-out-of-range error. -/
theorem C6_witness :
    resolveRemixVideoID "video_999" [testEntry, testEntry2] = .ok "video_999"
    ∧ resolveRemixVideoID "whatever" [] = .error "no videos in history"
    ∧ resolveRemixVideoID "@xyz" [testEntry, testEntry2] =
        .error "invalid index: @xyz"
    ∧ resolveRemixVideoID "@9" [testEntry, testEntry2] =
        .error "index out of range: 9 (have 2 videos)" := by
  refine ⟨?_, C6_literal_passthrough.1 "whatever", ?_, ?_⟩
  · exact C6_literal_passthrough.2.1 "video_999" [testEntry, testEntry2]
      (by decide) (by decide) (by decide)
  · exact C6_literal_passthrough.2.2.1 "@xyz" [testEntry, testEntry2]
      (by decide) (by decide) (by decide) (by decide)
  · exact C6_literal_passthrough.2.2.2 "@9" [testEntry, testEntry2] 9
      (by decide) (by decide) (by decide) (by decide) (by decide)

theorem pollStatusStepDownload {st : videoStatusResponse}
    (h : pollStatusStep st = some .download) :
    classifyStatus st.status = .success := by
  unfold pollStatusStep pollSwitch at h
  cases he : st.error with
  | some e =>
    rw [he] at h
    dsimp only at h
    by_cases hm : e.message ≠ ""
    · rw [if_pos hm] at h
      simp at h
    · rw [if_neg hm] at h
      cases hc : classifyStatus st.status <;> rw [hc] at h <;> simp_all
  | none =>
    rw [he] at h
    dsimp only at h
    cases hc : classifyStatus st.status <;> rw [hc] at h <;> simp_all

theorem pollLoopDownloadMem :
    ∀ evs, pollLoop evs = .download →
      ∃ st, PollEvent.response st ∈ evs ∧ classifyStatus st.status = .success := by
  intro evs h
  induction evs with
  | nil => simp [pollLoop] at h
  | cons e rest ih =>
    cases e with
    | transportError =>
      rw [show pollLoop (.transportError :: rest) = pollLoop rest from rfl] at h
      obtain ⟨st, hm, hc⟩ := ih h
      exact ⟨st, List.mem_cons_of_mem _ hm, hc⟩
    | response st =>
      rw [show pollLoop (.response st :: rest)
            = (match pollStatusStep st with
               | some out => out
               | none => pollLoop rest) from rfl] at h
      cases hstep : pollStatusStep st with
      | some out =>
        rw [hstep] at h
        dsimp only at h
        subst h
        exact ⟨st, List.mem_cons_self _ _, pollStatusStepDownload hstep⟩
      | none =>
        rw [hstep] at h
        dsimp only at h
        obtain ⟨st', hm, hc⟩ := ih h
        exact ⟨st', List.mem_cons_of_mem _ hm, hc⟩

/-- C2 counterexample: the claim says a job-level error field in a status
response is fatal with no retry, but a response whose error object carries an
empty message is NOT fatal: the loop keeps polling past it and still
downloads once the success status arrives. -/
theorem C2_counterexample :
    emptyErrResp.error = some { message := "", type := "" }
    ∧ pollLoop [.response emptyErrResp, .response succeededResp] = .download
    ∧ downloadsPerformed [.response emptyErrResp, .response succeededResp] = 1 := by
  decide

/-- C2 (amended): a transport-level poll error is retried on the next tick; a
job-level error field whose message is NON-EMPTY is fatal with no retry (an
error object with an empty message is ignored); status strings are matched
case-insensitively; a success-vocabulary status ends the loop in the download
branch, which performs exactly one download and is reached only after a
success status is observed; a failure-vocabulary status terminates with zero
downloads and zero history writes; any other status keeps polling. -/
theorem C2_polling_behaviour :
    (∀ rest, pollLoop (.transportError :: rest) = pollLoop rest)
    ∧ (∀ (st : videoStatusResponse) (e : apiError) rest,
        st.error = some e → e.message ≠ "" →
        pollLoop (.response st :: rest) = .jobErrorExit e.message)
    ∧ (∀ s t, goToLower s = goToLower t → classifyStatus s = classifyStatus t)
    ∧ (∀ (st : videoStatusResponse) rest, st.error = none →
        classifyStatus st.status = .success →
        pollLoop (.response st :: rest) = .download
        ∧ downloadsPerformed (.response st :: rest) = 1)
    ∧ (∀ (st : videoStatusResponse) rest, st.error = none →
        classifyStatus st.status = .failure →
        pollLoop (.response st :: rest) = .jobFailedExit
        ∧ downloadsPerformed (.response st :: rest) = 0
        ∧ ∀ ok, historyWrites (.response st :: rest) ok = 0)
    ∧ (∀ (st : videoStatusResponse) rest, st.error = none →
        classifyStatus st.status = .keepPolling →
        pollLoop (.response st :: rest) = pollLoop rest)
    ∧ (∀ evs, pollLoop evs = .download →
        ∃ st, PollEvent.response st ∈ evs ∧ classifyStatus st.status = .success) := by
  refine ⟨fun rest => rfl, ?_, ?_, ?_, ?_, ?_, pollLoopDownloadMem⟩
  · intro st e rest he hm
    simp [pollLoop, pollStatusStep, he, hm]
  · intro s t h
    unfold classifyStatus
    rw [h]
  · intro st rest he hc
    have hstep : pollStatusStep st = some .download := by
      simp [pollStatusStep, pollSwitch, he, hc]
    constructor
    · simp [pollLoop, hstep]
    · simp [downloadsPerformed, pollLoop, hstep]
  · intro st rest he hc
    have hstep : pollStatusStep st = some .jobFailedExit := by
      simp [pollStatusStep, pollSwitch, he, hc]
    refine ⟨by simp [pollLoop, hstep], by simp [downloadsPerformed, pollLoop, hstep], ?_⟩
    intro ok
    simp [historyWrites, pollLoop, hstep]
  · intro st rest he hc
    have hstep : pollStatusStep st = none := by
      simp [pollStatusStep, pollSwitch, he, hc]
    simp [pollLoop, hstep]

/-- C2 witness: the spec's own scenario — a job whose status becomes "failed"
on the second poll terminates with zero downloads and zero history writes —
plus a retried transport error and case-insensitive matching. -/
theorem C2_witness :
    pollLoop [.response queuedResp, .response failedResp]
        = pollLoop [.response failedResp]
    ∧ pollLoop [.response failedResp] = .jobFailedExit
    ∧ downloadsPerformed [.response failedResp] = 0
    ∧ historyWrites [.response failedResp] true = 0
    ∧ pollLoop [.transportError] = pollLoop []
    ∧ classifyStatus "SUCCEEDED" = classifyStatus "succeeded" :=
  ⟨C2_polling_behaviour.2.2.2.2.2.1 queuedResp [.response failedResp] rfl (by decide),
   (C2_polling_behaviour.2.2.2.2.1 failedResp [] rfl (by decide)).1,
   (C2_polling_behaviour.2.2.2.2.1 failedResp [] rfl (by decide)).2.1,
   (C2_polling_behaviour.2.2.2.2.1 failedResp [] rfl (by decide)).2.2 true,
   C2_polling_behaviour.1 [],
   C2_polling_behaviour.2.2.1 "SUCCEEDED" "succeeded" (by decide)⟩

/-- C10: an error object whose message is the empty string is treated as if
no error were reported — the polling loop keeps polling instead of failing
the job, and a 2xx create-job envelope carrying such an error object is
accepted with its job id returned; only a non-empty error message is fatal
(in both places). -/
theorem C10_empty_error_ignored :
    (∀ (st : videoStatusResponse) (e : apiError) rest, st.error = some e →
        e.message = "" → classifyStatus st.status = .keepPolling →
        pollLoop (.response st :: rest) = pollLoop rest)
    ∧ (∀ (out : createVideoResponse) (e : apiError), out.error = some e →
        e.message = "" → out.id ≠ "" →
        createVideoJobParse out = .ok out.id)
    ∧ (∀ (out : createVideoResponse) (e : apiError), out.error = some e →
        e.message ≠ "" →
        createVideoJobParse out = .error e.message)
    ∧ (∀ (st : videoStatusResponse) (e : apiError) rest, st.error = some e →
        e.message ≠ "" →
        pollLoop (.response st :: rest) = .jobErrorExit e.message) := by
  refine ⟨?_, ?_, ?_, ?_⟩
  · intro st e rest he hm hc
    have hstep : pollStatusStep st = none := by
      simp [pollStatusStep, pollSwitch, he, hm, hc]
    simp [pollLoop, hstep]
  · intro out e he hm hid
    simp [createVideoJobParse, he, hm, hid]
  · intro out e he hm
    simp [createVideoJobParse, he, hm]
  · intro st e rest he hm
    simp [pollLoop, pollStatusStep, he, hm]

/-- C10 witness: the concrete empty-message responses. -/
theorem C10_witness :
    pollLoop [.response emptyErrResp] = pollLoop []
    ∧ createVideoJobParse createRespEmptyErr = .ok "vid_9"
    ∧ createVideoJobParse createRespBoomErr = .error "boom"
    ∧ pollLoop [.response boomResp] = .jobErrorExit "boom" :=
  ⟨C10_empty_error_ignored.1 emptyErrResp { message := "", type := "" } [] rfl rfl
     (by decide),
   C10_empty_error_ignored.2.1 createRespEmptyErr { message := "", type := "" } rfl
     rfl (by decide),
   C10_empty_error_ignored.2.2.1 createRespBoomErr { message := "boom", type := "" }
     rfl (by decide),
   C10_empty_error_ignored.2.2.2 boomResp { message := "boom", type := "" } [] rfl
     (by decide)⟩

/-- C7 counterexample: with no output flags at all (no -o, no -O) the
destination is the stdout stream marker "-", not a file named from the job
id — the downloaded bytes go to the primary output stream and no file is
written, refuting "when the caller does not specify any output destination,
the download is written to a file whose name is derived from the job id". -/
theorem C7_counterexample :
    resolveOutput "" false "video_123" = "-"
    ∧ downloadFilePure (resolveOutput "" false "video_123") [9, 9] =
        { stdoutBytes := [9, 9], fileWritten := none }
    ∧ ("-" : String) ≠ "video_123" ++ ".mp4" := by
  decide

/-- C7 (amended): when the caller specifies no output flags, the download
goes to the byte-stream destination (the stdout marker "-"); the filename
derived from the job id (jobID ++ ".mp4") is used only when the caller
explicitly requests remote naming with -O (and then no stream is used); an
explicitly named output path is used as given. -/
theorem C7_output_default :
    ∀ jobID : String,
      resolveOutput "" false jobID = "-"
      ∧ resolveOutput "" true jobID = jobID ++ ".mp4"
      ∧ (∀ (output : String) (useRemote : Bool), output ≠ "" →
          resolveOutput output useRemote jobID = output) := by
  intro jobID
  refine ⟨rfl, rfl, ?_⟩
  intro output useRemote h
  simp [resolveOutput, h]

/-- C7 witness: an explicit output path is used as given. -/
theorem C7_witness :
    resolveOutput "clip.mp4" false "video_123" = "clip.mp4" :=
  (C7_output_default "video_123").2.2 "clip.mp4" false (by decide)

/-- C8 counterexample: for a streamed download (destination "-") the recorded
history entry's outputFile field is the marker "-", not the empty string the
claim (and the spec's HistoryEntry field description) requires. -/
theorem C8_counterexample :
    (mkHistoryEntry "vid_1" "p" "2025-01-01T00:00:00Z" "-" "sora-2" "" "").outputFile
      = "-"
    ∧ (mkHistoryEntry "vid_1" "p" "2025-01-01T00:00:00Z" "-" "sora-2" "" "").outputFile
      ≠ "" := by
  decide

/-- C8 (amended): when the destination is the stream-sink marker "-", no file
is created and all downloaded bytes go to the primary output stream (status
text is written to the stderr side channel by infof); however the history
entry recorded for the job stores the marker "-" in its outputFile field
rather than leaving it empty. -/
theorem C8_stream_sink :
    ∀ (body : List Nat) (jobID prompt createdAt model imageFile remixFrom : String),
      downloadFilePure "-" body = { stdoutBytes := body, fileWritten := none }
      ∧ (mkHistoryEntry jobID prompt createdAt "-" model imageFile remixFrom).outputFile
          = "-" := by
  intro body jobID prompt createdAt model imageFile remixFrom
  constructor
  · rfl
  · unfold mkHistoryEntry
    split <;> split <;> rfl

/-- C9 counterexample: an error during the download does NOT always remove
the temporary file — when f.Sync() fails after a complete copy the error is
assigned to a shadowed variable, the deferred cleanup sees the outer err as
nil, and outPath + ".part" is left on disk (here with the full body [1,2,3])
while an error is returned. -/
theorem C9_counterexample :
    downloadToFile [1, 2, 3] [1] (some .syncErr)
      = ({ tmp := some [1, 2, 3], final := none }, true) := by
  decide

/-- C9 (amended): bytes are first written to the temporary path and moved to
the final path by a single rename only after the full body is written,
synced and closed; an error during the body copy removes the temporary file,
but a sync, close or rename error leaves the temporary file in place (the
deferred cleanup tests an outer error variable that those failures shadow);
in every case the final path never holds a partially written file — it is
either absent or holds the complete body. -/
theorem C9_temp_rename :
    ∀ (body partialBytes : List Nat) (fail : Option DlErr),
      downloadToFile body partialBytes (some .copyErr)
          = ({ tmp := none, final := none }, true)
      ∧ (fail = some .syncErr ∨ fail = some .closeErr ∨ fail = some .renameErr →
          downloadToFile body partialBytes fail
            = ({ tmp := some body, final := none }, true))
      ∧ downloadToFile body partialBytes none
          = ({ tmp := none, final := some body }, false)
      ∧ ((downloadToFile body partialBytes fail).1.final = none
          ∨ (downloadToFile body partialBytes fail).1.final = some body) := by
  intro body partialBytes fail
  refine ⟨rfl, ?_, rfl, ?_⟩
  · rintro (h | h | h) <;> subst h <;> rfl
  · rcases fail with _ | e
    · right
      rfl
    · cases e <;> left <;> rfl

/-- C9 witness: the close-error case also leaves the synced temporary file
behind while the final path stays absent. -/
theorem C9_witness :
    downloadToFile [7, 8] [7] (some .closeErr)
      = ({ tmp := some [7, 8], final := none }, true) :=
  (C9_temp_rename [7, 8] [7] (some .closeErr)).2.1 (Or.inr (Or.inl rfl))

/-- Sanity check of src/main.go's image path: its encodeImageToDataURI embeds
the input bytes verbatim — the base64 payload decodes back to exactly the
bytes read from disk (no resize happens in that variant; the conform
pipeline proved above lives in the program copy embedded in src/go.mod,
processInputFile). -/
theorem encodeImageVerbatim :
    encodeImageToDataURI "frame.png" [137, 80, 78, 71]
      = .ok ("data:image/png;base64," ++ String.mk (base64StdEncode [137, 80, 78, 71]))
    ∧ base64StdDecode (base64StdEncode [137, 80, 78, 71]) = some [137, 80, 78, 71]
    ∧ base64StdDecode (base64StdEncode [255, 0, 1, 2, 3]) = some [255, 0, 1, 2, 3] := by
  constructor
  · rfl
  · constructor <;> decide
